import Mathlib

/-!
Verification of the parameter-resolution / configuration-precedence engine of
the agentspace-agent-registrar repository, together with the surrounding CLI
flows the specification describes.  All definitions below are shallow
embeddings of the Python source files:

  * `src/agentspace_registrar/config/manager.py`   (ConfigManager)
  * `src/agentspace_registrar/config/models.py`    (GlobalConfig, pydantic)
  * `src/agentspace_registrar/exceptions.py`       (error hierarchy)
  * `src/agentspace_registrar/cli/base.py`         (AuthCommand.get_auth_config)
  * `src/agentspace_registrar/cli/commands/registry.py` (delete_agent flow)
  * `src/agentspace_registrar/cli/commands/auth.py`     (RefreshAuthorizationCommand)
  * `src/agentspace_registrar/services/agent_registry.py` (update_agent)
  * `src/agentspace_registrar/utils/output.py`     (format_json = json.dumps(..., indent=2))
  * `as_registry_client.py`                        (legacy load_config / get_parameter / main)
  * `agent_engine_manager.py`                      (initialize_vertex_ai and the guard flag)

Machine strings are Lean `String`s; Python `None` is `Option.none`; a Python
function that may `raise` returns `Except PyError _`.
-/

/-- Mirror of the exception kinds visible to this code base.  The constructors
`configurationError`, `authenticationError`, `serviceError`, `validationError`
and `initError` mirror the classes of `exceptions.py`, all of which derive from
`AgentRegistrarError`.  `valueError` and `runtimeError` mirror Python's built-in
`ValueError` and `RuntimeError`, which do NOT derive from `AgentRegistrarError`.
There is no `MissingParameterError` class anywhere in the source. -/
inductive PyError where
  | valueError (msg : String)
  | runtimeError (msg : String)
  | configurationError (msg : String)
  | authenticationError (msg : String)
  | serviceError (msg : String)
  | validationError (msg : String)
  | initError (msg : String)
deriving DecidableEq, Repr

/-- Tests whether an exception kind derives from `AgentRegistrarError`
(`exceptions.py`): the five project-specific classes do, the Python built-ins
`ValueError` and `RuntimeError` do not. -/
def PyError.isAgentRegistrarError : PyError → Bool
  | .configurationError _ => true
  | .authenticationError _ => true
  | .serviceError _ => true
  | .validationError _ => true
  | .initError _ => true
  | .valueError _ => false
  | .runtimeError _ => false

/-- First-match association-list lookup, modelling a Python `dict` (whose keys
are unique, so first match is the only match). -/
def lookup {α : Type} (l : List (String × α)) (k : String) : Option α :=
  (l.find? (fun p => p.1 = k)).map (fun p => p.2)

/-- Python truthiness of an `Optional[str]`: `None` and `""` are falsy. -/
def truthyOptStr : Option String → Bool
  | none => false
  | some s => s != ""

/-- Python's `str.strip()` with no arguments: remove leading and trailing
whitespace. -/
def pyStrip (s : String) : String :=
  String.mk (((s.data.dropWhile Char.isWhitespace).reverse.dropWhile
    Char.isWhitespace).reverse)

/-- Python's `str.lower()` (on the ASCII answers compared here). -/
def pyLower (s : String) : String :=
  String.mk (s.data.map Char.toLower)

/-- Python's `str.upper()` (on the ASCII parameter names used here). -/
def pyUpper (s : String) : String :=
  String.mk (s.data.map Char.toUpper)

/-- Mirror of `GlobalConfig` from `config/models.py`: every field is an
optional string defaulting to `None`, except `api_location` and `re_location`,
which are plain strings defaulting to `"global"`. -/
structure GlobalConfig where
  project_id : Option String := none
  app_id : Option String := none
  ars_display_name : Option String := none
  description : Option String := none
  tool_description : Option String := none
  adk_deployment_id : Option String := none
  auth_id : Option String := none
  icon_uri : Option String := none
  api_location : String := "global"
  re_location : String := "global"
  location : Option String := none
  re_resource_name : Option String := none
  re_resource_id : Option String := none
  re_display_name : Option String := none
  agent_id : Option String := none
deriving DecidableEq, Repr

/-- Mirror of `hasattr(config, name)` / `getattr(config, name)` on a
`GlobalConfig` instance, for the declared model fields: `some v` means the
attribute exists and its value is `v` (`none` inside meaning Python `None`);
`none` outside means `hasattr` is false.  The non-optional fields
`api_location` and `re_location` always carry a value.  (No call site of
`get_parameter` uses a name outside this field list.) -/
def configAttr (g : GlobalConfig) : String → Option (Option String)
  | "project_id" => some g.project_id
  | "app_id" => some g.app_id
  | "ars_display_name" => some g.ars_display_name
  | "description" => some g.description
  | "tool_description" => some g.tool_description
  | "adk_deployment_id" => some g.adk_deployment_id
  | "auth_id" => some g.auth_id
  | "icon_uri" => some g.icon_uri
  | "api_location" => some (some g.api_location)
  | "re_location" => some (some g.re_location)
  | "location" => some g.location
  | "re_resource_name" => some g.re_resource_name
  | "re_resource_id" => some g.re_resource_id
  | "re_display_name" => some g.re_display_name
  | "agent_id" => some g.agent_id
  | _ => none

/-- What the configured path resolves to on disk, as seen by
`ConfigManager.load_config` (`manager.py` lines 36-59): the file may be
missing, hold malformed JSON (`json.JSONDecodeError`), hold JSON that
`GlobalConfig(**data)` rejects (the `except Exception` branch), or parse into a
`GlobalConfig`. -/
inductive FileContent where
  | missing
  | malformedJson
  | invalidData
  | valid (g : GlobalConfig)
deriving DecidableEq, Repr

/-- Mirror of `ConfigManager.load_config`: a missing file, malformed JSON, or
data rejected by the model all silently yield a default-constructed
`GlobalConfig()`; nothing is ever raised. -/
def load_config : FileContent → GlobalConfig
  | .missing => {}
  | .malformedJson => {}
  | .invalidData => {}
  | .valid g => g

/-- The four ambient inputs of `ConfigManager.get_parameter`: the config file
on disk, the CLI-argument dict (`self._cli_args`, values possibly `None`), the
process environment, and the response the user would type at the (single,
blocking) interactive prompt. -/
structure ResolverState where
  file : FileContent
  cli_args : List (String × Option String)
  env : List (String × String)
  user_input : String
deriving DecidableEq, Repr

/-- Mirror of the CLI check `name in self._cli_args and self._cli_args[name]
is not None` (`manager.py` line 95): yields the value only when the key is
present with a non-`None` value. -/
def cli_value (st : ResolverState) (name : String) : Option String :=
  match lookup st.cli_args name with
  | some (some v) => some v
  | _ => none

/-- Mirror of the config-file check `hasattr(config, name)` and `value is not
None` (`manager.py` lines 101-105). -/
def config_value (g : GlobalConfig) (name : String) : Option String :=
  match configAttr g name with
  | some (some v) => some v
  | _ => none

/-- The fixed environment-variable transformation of a parameter name
(`manager.py` line 108). -/
def env_name (name : String) : String :=
  "AGENTSPACE_" ++ pyUpper name

/-- Mirror of the environment check (`manager.py` lines 109-112). -/
def env_value (st : ResolverState) (name : String) : Option String :=
  lookup st.env (env_name name)

/-- Message of the `ValueError` raised when a prompted required parameter gets
an empty response (`manager.py` line 121). -/
def prompt_required_msg (name : String) : String :=
  "Parameter \x27" ++ name ++ "\x27 is required but was not provided via prompt."

/-- Message of the `ValueError` raised when a required parameter is found
nowhere (`manager.py` line 129). -/
def required_msg (name : String) : String :=
  "Parameter \x27" ++ name ++ "\x27 is required but not found via CLI, config, or prompt."

/-- Mirror of the final two steps of `get_parameter` (`manager.py` lines
123-131): return the default if set, else raise if required, else return
`None`. -/
def resolve_default (name : String) (required : Bool) (default : Option String) :
    Except PyError (Option String) :=
  match default with
  | some d => .ok (some d)
  | none =>
    if required then .error (.valueError (required_msg name))
    else .ok none

/-- Mirror of `ConfigManager.get_parameter` (`manager.py` lines 65-131):
precedence CLI args, config file, environment, interactive prompt (only when a
truthy prompt text was supplied; an empty stripped response counts as no
value), then static default; a still-unresolved required parameter raises
`ValueError`. -/
def get_parameter (st : ResolverState) (name : String) (prompt : Option String)
    (required : Bool) (default : Option String) : Except PyError (Option String) :=
  match cli_value st name with
  | some v => .ok (some v)
  | none =>
  match config_value (load_config st.file) name with
  | some v => .ok (some v)
  | none =>
  match env_value st name with
  | some v => .ok (some v)
  | none =>
  if truthyOptStr prompt then
    let ui := pyStrip st.user_input
    if ui ≠ "" then .ok (some ui)
    else if default = none ∧ required then .error (.valueError (prompt_required_msg name))
    else resolve_default name required default
  else resolve_default name required default

/-- What the legacy config path resolves to, as seen by `load_config` of
`as_registry_client.py` (lines 23-34): the raw JSON object is kept as a dict
(values may be JSON `null`). -/
inductive RawFile where
  | missing
  | malformedJson
  | valid (d : List (String × Option String))
deriving DecidableEq, Repr

/-- Mirror of the legacy `load_config` (`as_registry_client.py` lines 23-34):
a missing file or malformed JSON silently yields the empty dict. -/
def load_config_legacy : RawFile → List (String × Option String)
  | .missing => []
  | .malformedJson => []
  | .valid d => d

/-- Mirror of the legacy `get_parameter` (`as_registry_client.py` lines 36-75):
precedence CLI args (`getattr(args, name, None) is not None`), config dict
(`name in config` returns `config[name]` even when it is `null`), interactive
prompt, then default; there is no environment source in this variant. -/
def get_parameter_legacy (config : List (String × Option String))
    (cli : List (String × Option String)) (name : String) (prompt : Option String)
    (required : Bool) (default : Option String) (user_input : String) :
    Except PyError (Option String) :=
  match lookup cli name with
  | some (some v) => .ok (some v)
  | _ =>
  match lookup config name with
  | some v => .ok v
  | none =>
  if truthyOptStr prompt then
    let ui := pyStrip user_input
    if ui ≠ "" then .ok (some ui)
    else if default = none ∧ required then .error (.valueError (prompt_required_msg name))
    else resolve_default name required default
  else resolve_default name required default

/-- Result dict of `ConfigManager.get_agent_registry_config`. -/
structure RegistryConfigDict where
  project_id : Option String
  app_id : Option String
  api_location : Option String
  re_location : Option String
deriving DecidableEq, Repr

/-- Mirror of `ConfigManager.get_agent_registry_config` (`manager.py` lines
133-140): project id and app id required, the two location fields defaulting
to the literal `"global"`.  Fields are resolved left to right, as in the
Python dict literal. -/
def get_agent_registry_config (st : ResolverState) : Except PyError RegistryConfigDict := do
  let p ← get_parameter st "project_id" none true none
  let a ← get_parameter st "app_id" none true none
  let al ← get_parameter st "api_location" none false (some "global")
  let rl ← get_parameter st "re_location" none false (some "global")
  return { project_id := p, app_id := a, api_location := al, re_location := rl }

/-- Result dict of `ConfigManager.get_agent_engine_config`. -/
structure EngineConfigDict where
  project_id : Option String
  location : Option String
deriving DecidableEq, Repr

/-- Mirror of `ConfigManager.get_agent_engine_config` (`manager.py` lines
142-147): project id required, location defaulting to `"us-central1"`. -/
def get_agent_engine_config (st : ResolverState) : Except PyError EngineConfigDict := do
  let p ← get_parameter st "project_id" none true none
  let l ← get_parameter st "location" none false (some "us-central1")
  return { project_id := p, location := l }

/-- Result dict of `ConfigManager.get_agent_config`. -/
structure AgentConfigDict where
  display_name : Option String
  description : Option String
  tool_description : Option String
  adk_deployment_id : Option String
  auth_id : Option String
  icon_uri : Option String
deriving DecidableEq, Repr

/-- Mirror of `ConfigManager.get_agent_config` (`manager.py` lines 149-158):
display name, description, tool description and deployment id required;
authorization id and icon URI optional with no default. -/
def get_agent_config (st : ResolverState) : Except PyError AgentConfigDict := do
  let dn ← get_parameter st "ars_display_name" none true none
  let de ← get_parameter st "description" none true none
  let td ← get_parameter st "tool_description" none true none
  let dep ← get_parameter st "adk_deployment_id" none true none
  let au ← get_parameter st "auth_id" none false none
  let ic ← get_parameter st "icon_uri" none false none
  return { display_name := dn, description := de, tool_description := td,
           adk_deployment_id := dep, auth_id := au, icon_uri := ic }

/-- A state with no config file, no CLI arguments, no environment and an empty
interactive response: nothing resolves. -/
def emptyResolverState : ResolverState :=
  { file := .missing, cli_args := [], env := [], user_input := "" }

/-- Observable outcome of one run of a destructive CLI verb: the messages it
printed, the list of resource identifiers it issued delete requests for, and
whether it exited early (`typer.Exit`). -/
structure DeleteFlowResult where
  messages : List String
  network : List String
  exited : Bool
deriving DecidableEq, Repr

/-- Mirror of the guard of the `registry delete` command
(`cli/commands/registry.py` lines 203-224, identical in `engine delete` and
`auth delete`): without `--force` the user is asked to confirm, and a negative
answer prints "Operation cancelled." and exits before the `ConfigManager`,
command object or service are ever constructed.  The continuation `proceed`
stands for everything after the guard (config resolution, the HTTP DELETE and
the success message). -/
def delete_agent_cli (force : Bool) (confirmAnswer : Bool)
    (proceed : DeleteFlowResult) : DeleteFlowResult :=
  if !force then
    if !confirmAnswer then
      { messages := ["Operation cancelled."], network := [], exited := true }
    else proceed
  else proceed

/-- Mirror of the `unregister_agent` branch of the legacy client
(`as_registry_client.py` lines 213-224): the typed confirmation is lowercased
and compared to "yes"; anything else prints the cancellation message and makes
no call.  `proceed` stands for the `ars_delete_agent` call plus result
printing. -/
def unregister_agent_flow (confirmAnswer : String)
    (proceed : DeleteFlowResult) : DeleteFlowResult :=
  if pyLower confirmAnswer = "yes" then proceed
  else { messages := ["Unregistering agent cancelled."], network := [], exited := false }

/-- One outbound call of `AuthorizationService`
(`services/authorization.py`): creating an authorization (with the id passed
by the caller, possibly `None` for server-side generation) or deleting one. -/
inductive AuthCall where
  | create (auth_id : Option String)
  | del (auth_id : String)
deriving DecidableEq, Repr

/-- Whether a service call is a delete. -/
def AuthCall.isDelete : AuthCall → Bool
  | .del _ => true
  | .create _ => false

/-- Last `/`-separated segment of a resource name, mirroring Python's
`name.split('/')[-1]`. -/
def lastSegment (s : String) : String :=
  (s.splitOn "/").getLastD ""

/-- Mirror of `RefreshAuthorizationCommand.execute`
(`cli/commands/auth.py` lines 71-110), with the two service calls abstracted
by their outcomes: `createOutcome` is the result of
`service.create_authorization` (carrying the optional `name` field of the
returned dict), `deleteOutcome` the result of `service.delete_authorization`.
Returned are the chronological list of service calls actually issued and the
overall result (the composite dict abstracted to its `message` field).  A
falsy `old_auth_id` raises `ValueError` before any call; otherwise the new
authorization is created first; only then is the old one deleted; an
exception from either call propagates with no compensating action. -/
def refresh_execute (old_auth_id : String) (new_auth_id : Option String)
    (createOutcome : Except PyError (Option String))
    (deleteOutcome : Except PyError Unit) :
    List AuthCall × Except PyError String :=
  if old_auth_id = "" then ([], .error (.valueError "old_auth_id is required"))
  else
  match createOutcome with
  | .error e => ([.create new_auth_id], .error e)
  | .ok createdName =>
    let actual : Option String :=
      if truthyOptStr new_auth_id then new_auth_id
      else if truthyOptStr createdName then createdName.map lastSegment
      else new_auth_id
    match deleteOutcome with
    | .error e => ([.create new_auth_id, .del old_auth_id], .error e)
    | .ok _ =>
      ([.create new_auth_id, .del old_auth_id],
       .ok ("Authorization refreshed: " ++ old_auth_id ++ " -> " ++
            (match actual with | some a => a | none => "None")))

/-- A value placed in the PATCH request body of `update_agent`: either a JSON
string or a JSON list of strings (the `authorizations` field). -/
inductive BodyVal where
  | s (v : String)
  | arr (vs : List String)
deriving DecidableEq, Repr

/-- Mirror of `AgentRegistryService._build_url`
(`services/agent_registry.py` lines 34-45). -/
def build_url (project_id app_id : String) (agent_id : Option String)
    (api_location : String) : String :=
  let location_prefix := if api_location ≠ "global" then api_location ++ "-" else ""
  let url := "https://" ++ location_prefix ++ "discoveryengine.googleapis.com/v1alpha"
  let base_path := url ++ "/projects/" ++ project_id ++ "/locations/" ++ api_location ++
    "/collections/default_collection/engines/" ++ app_id ++
    "/assistants/default_assistant/agents"
  if truthyOptStr agent_id then
    base_path ++ "/" ++ (match agent_id with | some a => a | none => "")
  else base_path

/-- The `reasoning_engine` resource string interpolated by `update_agent` and
`create_agent`. -/
def reasoning_engine_path (project_id re_location dep : String) : String :=
  "projects/" ++ project_id ++ "/locations/" ++ re_location ++
    "/reasoningEngines/" ++ dep

/-- The authorization resource string interpolated by `update_agent`. -/
def authorization_path (project_id api_location aid : String) : String :=
  "projects/" ++ project_id ++ "/locations/" ++ api_location ++
    "/authorizations/" ++ aid

/-- The `updateMask` parts accumulated by `update_agent`
(`services/agent_registry.py` lines 229-254): one entry per non-`None`
optional field argument, in the fixed source order. -/
def update_mask_parts (display_name description tool_description
    adk_deployment_id auth_id icon_uri : Option String) : List String :=
  (match display_name with | some _ => ["displayName"] | none => []) ++
  (match description with | some _ => ["description"] | none => []) ++
  (match tool_description with
    | some _ => ["adk_agent_definition.tool_settings.tool_description"]
    | none => []) ++
  (match adk_deployment_id with
    | some _ => ["adk_agent_definition.provisioned_reasoning_engine.reasoning_engine"]
    | none => []) ++
  (match auth_id with | some _ => ["adk_agent_definition.authorizations"] | none => []) ++
  (match icon_uri with | some _ => ["icon.uri"] | none => [])

/-- The request body accumulated by `update_agent` alongside the mask: each
non-`None` field argument contributes the pair whose key is exactly its mask
entry. -/
def update_body (project_id : String) (display_name description tool_description
    adk_deployment_id auth_id icon_uri : Option String)
    (re_location api_location : String) : List (String × BodyVal) :=
  (match display_name with | some v => [("displayName", BodyVal.s v)] | none => []) ++
  (match description with | some v => [("description", BodyVal.s v)] | none => []) ++
  (match tool_description with
    | some v => [("adk_agent_definition.tool_settings.tool_description", BodyVal.s v)]
    | none => []) ++
  (match adk_deployment_id with
    | some v => [("adk_agent_definition.provisioned_reasoning_engine.reasoning_engine",
                  BodyVal.s (reasoning_engine_path project_id re_location v))]
    | none => []) ++
  (match auth_id with
    | some v => [("adk_agent_definition.authorizations",
                  BodyVal.arr [authorization_path project_id api_location v])]
    | none => []) ++
  (match icon_uri with | some v => [("icon.uri", BodyVal.s v)] | none => [])

/-- The single PATCH request `update_agent` issues when it has fields to
update. -/
structure UpdateRequest where
  url : String
  body : List (String × BodyVal)
  updateMask : String
deriving DecidableEq, Repr

/-- Mirror of `AgentRegistryService.update_agent`
(`services/agent_registry.py` lines 188-267).  `token` abstracts
`get_access_token()` (`utils/auth.py`); a missing token raises
`AuthenticationError` inside `_get_headers` before the body is built.  With a
token, the mask and body are accumulated field by field; if no optional field
argument was given, `ServiceError("No fields to update")` is raised before any
HTTP request; otherwise exactly one PATCH request is issued, whose
`updateMask` query parameter is the comma-join of the mask parts. -/
def update_agent (token : Option String) (agent_id project_id app_id : String)
    (display_name description tool_description adk_deployment_id auth_id
     icon_uri : Option String) (re_location api_location : String) :
    Except PyError UpdateRequest :=
  let url := build_url project_id app_id (some agent_id) api_location
  match token with
  | none => .error (.authenticationError "Failed to obtain access token")
  | some _ =>
    let parts := update_mask_parts display_name description tool_description
      adk_deployment_id auth_id icon_uri
    let data := update_body project_id display_name description tool_description
      adk_deployment_id auth_id icon_uri re_location api_location
    if parts = [] then .error (.serviceError "No fields to update")
    else .ok { url := url, body := data, updateMask := String.intercalate "," parts }

/-- Message of the `RuntimeError` raised by `_ensure_vertex_ai_initialized`
(`agent_engine_manager.py` lines 29-35). -/
def ensure_msg : String :=
  "Vertex AI SDK has not been initialized. Please call agent_engine_manager.initialize_vertex_ai(project_id, [location]) first."

/-- Mirror of `initialize_vertex_ai` (`agent_engine_manager.py` lines 12-27).
The state is the module-global `_vertex_ai_initialized` flag; `sdk` abstracts
the outcome of `vertexai.init`.  A falsy project id raises `ValueError`
*before* the `try` block, leaving the flag unchanged; a `vertexai.init`
failure sets the flag to `False` and re-raises; success sets it to `True`. -/
def init_vertex_ai (flag : Bool) (project_id : Option String)
    (sdk : Except PyError Unit) : Bool × Except PyError Unit :=
  if !truthyOptStr project_id then
    (flag, .error (.valueError "Project ID cannot be None or empty for Vertex AI initialization."))
  else
    match sdk with
    | .ok _ => (true, .ok ())
    | .error e => (false, .error e)

/-- Mirror of `_ensure_vertex_ai_initialized` (`agent_engine_manager.py` lines
29-35): raises `RuntimeError` when the flag is unset. -/
def ensure_vertex_ai_ready (flag : Bool) : Except PyError Unit :=
  if !flag then .error (.runtimeError ensure_msg) else .ok ()

/-- One agent record as serialized by the legacy engine manager. -/
structure AgentInfo where
  name : String
  display_name : String
  resource_name : String
  create_time : String
deriving DecidableEq, Repr

/-- Mirror of `list_agents` (`agent_engine_manager.py` lines 37-53): guard,
then the SDK listing (abstracted by `sdkAgents`). -/
def legacy_list_agents (flag : Bool) (sdkAgents : List AgentInfo) :
    Except PyError (List AgentInfo) :=
  match ensure_vertex_ai_ready flag with
  | .error e => .error e
  | .ok _ => .ok sdkAgents

/-- Mirror of `delete_agent` (`agent_engine_manager.py` lines 56-68): guard,
then the SDK delete and a success message. -/
def legacy_delete_agent (flag : Bool) (resource_name : String) :
    Except PyError String :=
  match ensure_vertex_ai_ready flag with
  | .error e => .error e
  | .ok _ => .ok ("Agent with resource name " ++ resource_name ++ " deleted successfully.")

/-- Mirror of `get_agent` (`agent_engine_manager.py` lines 71-81): guard, then
the SDK get (abstracted by `sdkAgent`). -/
def legacy_get_agent (flag : Bool) (sdkAgent : AgentInfo) :
    Except PyError AgentInfo :=
  match ensure_vertex_ai_ready flag with
  | .error e => .error e
  | .ok _ => .ok sdkAgent

/-- Mirror of `list_agents_by_display_name` (`agent_engine_manager.py` lines
84-103): guard, then the filtered SDK listing. -/
def legacy_list_agents_by_display_name (flag : Bool) (display_name : String)
    (sdkAgents : List AgentInfo) : Except PyError (List AgentInfo) :=
  match ensure_vertex_ai_ready flag with
  | .error e => .error e
  | .ok _ => .ok (sdkAgents.filter (fun a => a.display_name = display_name))

/-- Value of a hexadecimal digit character, lowercase or uppercase (as accepted
by Python's `json.loads` in `\uXXXX` escapes). -/
def hexVal (c : Char) : Option Nat :=
  let n := c.toNat
  if 48 ≤ n ∧ n ≤ 57 then some (n - 48)
  else if 97 ≤ n ∧ n ≤ 102 then some (n - 87)
  else if 65 ≤ n ∧ n ≤ 70 then some (n - 55)
  else none

/-- Lowercase hexadecimal digit for a nibble, as emitted by Python's
`json.dumps`. -/
def toHexDigit (n : Nat) : Char :=
  if n < 10 then Char.ofNat (48 + n) else Char.ofNat (87 + n)

/-- Four lowercase hex digits of a value below 2^16, as in a `\uXXXX`
escape. -/
def hex4 (n : Nat) : List Char :=
  [toHexDigit (n / 4096 % 16), toHexDigit (n / 256 % 16),
   toHexDigit (n / 16 % 16), toHexDigit (n % 16)]

/-- How `json.dumps` (default `ensure_ascii=True`, as called by `format_json`
in `utils/output.py`) renders one character inside a JSON string: `"` and `\`
and the five C0 controls with short escapes get two-character escapes, other
characters below 0x20 and at or above 0x7f get `\uXXXX` escapes (a surrogate
pair for code points above 0xffff), printable ASCII passes through. -/
def escapeChar (c : Char) : List Char :=
  if c = '"' then ['\\', '"']
  else if c = '\\' then ['\\', '\\']
  else if c = '\x08' then ['\\', 'b']
  else if c = '\x0c' then ['\\', 'f']
  else if c = '\n' then ['\\', 'n']
  else if c = '\r' then ['\\', 'r']
  else if c = '\t' then ['\\', 't']
  else if c.toNat < 32 then '\\' :: 'u' :: hex4 c.toNat
  else if c.toNat < 127 then [c]
  else if c.toNat < 65536 then '\\' :: 'u' :: hex4 c.toNat
  else
    ('\\' :: 'u' :: hex4 (55296 + (c.toNat - 65536) / 1024)) ++
    ('\\' :: 'u' :: hex4 (56320 + (c.toNat - 65536) % 1024))

/-- Escape every character of a string body. -/
def escapeList : List Char → List Char
  | [] => []
  | c :: cs => escapeChar c ++ escapeList cs

/-- A JSON string literal as emitted by `json.dumps`. -/
def json_dump_string (v : String) : List Char :=
  '"' :: (escapeList v.data ++ ['"'])

/-- One `  "key": "value"` line of `json.dumps(d, indent=2)` (the two-space
indent followed by key, colon-space separator and value). -/
def json_dump_entry (kv : String × String) : List Char :=
  ' ' :: ' ' :: (json_dump_string kv.1 ++ (':' :: ' ' :: json_dump_string kv.2))

/-- Everything after the first entry of `json.dumps(d, indent=2)`: each later
entry is preceded by the `,\n` item separator (the indent is part of the
entry), and the object is closed by `\n}`. -/
def json_dump_rest : List (String × String) → List Char
  | [] => ['\n', '\x7d']
  | kv :: rest => ',' :: '\n' :: (json_dump_entry kv ++ json_dump_rest rest)

/-- Mirror of `json.dumps(d, indent=2)` on a flat object whose values are all
strings — exactly how `format_json` / `print_json` (`utils/output.py` lines
8-39) render a ResolvedConfig dict.  An empty dict renders as `{}`; otherwise
`{`, a newline, the two-space-indented entries separated by `,\n`, a newline
and `}`. -/
def json_dumps_flat (m : List (String × String)) : String :=
  match m with
  | [] => "\x7b\x7d"
  | kv :: rest => String.mk ('\x7b' :: '\n' :: (json_dump_entry kv ++ json_dump_rest rest))

/-- Read exactly four hexadecimal digits and return their value and the
remaining input. -/
def hex4val (l : List Char) : Option (Nat × List Char) :=
  match l with
  | h1 :: h2 :: h3 :: h4 :: rest =>
    (hexVal h1).bind fun x1 =>
    (hexVal h2).bind fun x2 =>
    (hexVal h3).bind fun x3 =>
    (hexVal h4).bind fun x4 =>
    some (4096 * x1 + 256 * x2 + 16 * x3 + x4, rest)
  | _ => none

/-- Decode the `uXXXX` part of a `\uXXXX` escape, combining a high surrogate
with the mandatory following `\uYYYY` low surrogate into one code point (Lean
strings cannot hold the lone surrogates Python would tolerate, so those are
rejected). -/
def decode_u (l : List Char) : Option (Char × List Char) :=
  match hex4val l with
  | none => none
  | some (n, rest) =>
    if 55296 ≤ n ∧ n < 56320 then
      match rest with
      | b1 :: b2 :: rest2 =>
        if b1 = '\\' ∧ b2 = 'u' then
          match hex4val rest2 with
          | some (m, rest3) =>
            if 56320 ≤ m ∧ m < 57344 then
              some (Char.ofNat (65536 + 1024 * (n - 55296) + (m - 56320)), rest3)
            else none
          | none => none
        else none
      | _ => none
    else if 56320 ≤ n ∧ n < 57344 then none
    else some (Char.ofNat n, rest)

/-- Decode one escape sequence (the input starts right after the backslash):
one of the eight short escapes of `json.loads`, or a `\uXXXX` escape. -/
def decode_escape : List Char → Option (Char × List Char)
  | [] => none
  | e :: rest =>
    if e = '"' then some ('"', rest)
    else if e = '\\' then some ('\\', rest)
    else if e = '/' then some ('/', rest)
    else if e = 'b' then some ('\x08', rest)
    else if e = 'f' then some ('\x0c', rest)
    else if e = 'n' then some ('\n', rest)
    else if e = 'r' then some ('\r', rest)
    else if e = 't' then some ('\t', rest)
    else if e = 'u' then decode_u rest
    else none

/-- Body of a JSON string literal after the opening quote, mirroring Python's
`json.loads` scanner: a closing quote ends the string; a backslash introduces
an escape sequence; raw control characters below 0x20 are rejected
(`strict=True`); anything else is taken verbatim.  `fuel` bounds the number of
scanned tokens; callers pass the input length plus one, which always suffices
since every step consumes at least one character. -/
def parse_string_body (fuel : Nat) (acc : List Char) (l : List Char) :
    Option (List Char × List Char) :=
  match fuel with
  | 0 => none
  | Nat.succ f =>
    match l with
    | [] => none
    | c :: rest =>
      if c = '"' then some (acc.reverse, rest)
      else if c = '\\' then
        match decode_escape rest with
        | some (ch, rest2) => parse_string_body f (ch :: acc) rest2
        | none => none
      else if c.toNat < 32 then none
      else parse_string_body f (c :: acc) rest

/-- A JSON string literal: an opening quote followed by a string body. -/
def parse_json_string (l : List Char) : Option (String × List Char) :=
  match l with
  | '"' :: rest =>
    match parse_string_body (rest.length + 1) [] rest with
    | some (cs, r) => some (String.mk cs, r)
    | none => none
  | _ => none

/-- Skip JSON whitespace (space, tab, newline, carriage return), as
`json.loads` does between tokens. -/
def skip_ws : List Char → List Char
  | [] => []
  | c :: rest =>
    if c = ' ' ∨ c = '\t' ∨ c = '\n' ∨ c = '\r' then skip_ws rest
    else c :: rest

/-- Member loop of a flat JSON object: parse `"key" : "value"`, then either a
comma and another member or the closing brace.  `fuel` bounds the number of
members; `json_loads_flat` passes the input length, which always suffices
since every member consumes at least one character. -/
def parse_members (fuel : Nat) (acc : List (String × String)) (l : List Char) :
    Option (List (String × String) × List Char) :=
  match fuel with
  | 0 => none
  | Nat.succ f =>
    match parse_json_string (skip_ws l) with
    | none => none
    | some (k, r1) =>
      match skip_ws r1 with
      | ':' :: r2 =>
        match parse_json_string (skip_ws r2) with
        | none => none
        | some (v, r3) =>
          match skip_ws r3 with
          | ',' :: r4 => parse_members f ((k, v) :: acc) r4
          | '\x7d' :: r4 => some (((k, v) :: acc).reverse, r4)
          | _ => none
      | _ => none

/-- Mirror of `json.loads` restricted to flat objects with string keys and
string values (the shape of a rendered ResolvedConfig): optional leading
whitespace, `{`, either an immediate `}` or a member list, and nothing but
whitespace after the object. -/
def json_loads_flat (s : String) : Option (List (String × String)) :=
  match skip_ws s.data with
  | '\x7b' :: r1 =>
    match skip_ws r1 with
    | '\x7d' :: r2 => if skip_ws r2 = [] then some [] else none
    | _ =>
      match parse_members (r1.length + 1) [] r1 with
      | some (m, rest) => if skip_ws rest = [] then some m else none
      | none => none
  | _ => none

/-- Helper list of mask entries contributed by one optional field: the tag
when the field is given, nothing otherwise. -/
def maskTag (o : Option String) (a : String) : List String :=
  match o with
  | some _ => [a]
  | none => []

/-- Restatement of `update_mask_parts` through `maskTag`. -/
theorem update_mask_parts_eq (dn de td dep auth icon : Option String) :
    update_mask_parts dn de td dep auth icon =
      maskTag dn "displayName" ++ maskTag de "description" ++
      maskTag td "adk_agent_definition.tool_settings.tool_description" ++
      maskTag dep "adk_agent_definition.provisioned_reasoning_engine.reasoning_engine" ++
      maskTag auth "adk_agent_definition.authorizations" ++ maskTag icon "icon.uri" := by
  cases dn <;> cases de <;> cases td <;> cases dep <;> cases auth <;> cases icon <;> rfl

/-- Membership in a `maskTag` segment. -/
theorem maskTag_mem (x a : String) (o : Option String) :
    x ∈ maskTag o a ↔ (o ≠ none ∧ x = a) := by
  cases o <;> simp [maskTag]

/-- Claim C1: the resolver consults its sources in the fixed order CLI
arguments, config file, environment, interactive prompt, static default: a
present CLI value is returned verbatim regardless of the config file,
environment, prompt or default; with CLI absent a config-file value wins over
environment, prompt and default; with CLI and config absent an environment
value wins over prompt and default.  Once a value resolves at a level, lower
levels are never consulted (the result does not depend on them).  The same
CLI-over-config law holds for the legacy resolver of `as_registry_client.py`
(which has no environment source). -/
theorem c1_precedence_law (st : ResolverState) (name : String)
    (prompt : Option String) (required : Bool) (default : Option String) (v : String) :
    (cli_value st name = some v →
      get_parameter st name prompt required default = .ok (some v)) ∧
    (cli_value st name = none →
      config_value (load_config st.file) name = some v →
      get_parameter st name prompt required default = .ok (some v)) ∧
    (cli_value st name = none →
      config_value (load_config st.file) name = none →
      env_value st name = some v →
      get_parameter st name prompt required default = .ok (some v)) ∧
    (∀ (config cli : List (String × Option String)) (ui : String),
      lookup cli name = some (some v) →
      get_parameter_legacy config cli name prompt required default ui = .ok (some v)) ∧
    (∀ (config cli : List (String × Option String)) (ui : String) (w : Option String),
      lookup cli name = none →
      lookup config name = some w →
      get_parameter_legacy config cli name prompt required default ui = .ok w) := by
  refine ⟨?_, ?_, ?_, ?_, ?_⟩
  · intro h
    simp [get_parameter, h]
  · intro h1 h2
    simp [get_parameter, h1, h2]
  · intro h1 h2 h3
    simp [get_parameter, h1, h2, h3]
  · intro config cli ui h
    simp [get_parameter_legacy, h]
  · intro config cli ui w h1 h2
    simp [get_parameter_legacy, h1, h2]

/-- Witness for C1 at a concrete input: a CLI-supplied `project_id` wins even
though the config file, environment and default would also supply one. -/
theorem c1_precedence_law_witness :
    get_parameter
      { file := .valid { project_id := some "p2" },
        cli_args := [("project_id", some "p1")],
        env := [("AGENTSPACE_PROJECT_ID", "p3")], user_input := "p4" }
      "project_id" none true (some "p5") = .ok (some "p1") :=
  (c1_precedence_law _ "project_id" none true (some "p5") "p1").1 (by decide)

/-- Counterexample to C2 as stated: at a concrete input where a required
parameter resolves nowhere, the resolver raises Python's built-in
`ValueError` — which does not belong to the `AgentRegistrarError` hierarchy of
`exceptions.py` — and no `MissingParameterError` kind exists in the code.  The
message does name the parameter. -/
theorem c2_value_error_counterexample :
    get_parameter emptyResolverState "agent_id" none true none =
      .error (.valueError (required_msg "agent_id")) ∧
    (PyError.valueError (required_msg "agent_id")).isAgentRegistrarError = false ∧
    required_msg "agent_id" =
      "Parameter \x27agent_id\x27 is required but not found via CLI, config, or prompt." := by
  exact ⟨rfl, rfl, rfl⟩

/-- Claim C2 (amended): if a parameter is required and no source — CLI, config
file, environment, prompt (including an empty interactive response) or
default — yields a value, resolution fails with Python's generic `ValueError`
whose message names the parameter (the code defines no distinct
`MissingParameterError` kind). -/
theorem c2_missing_required_value_error (st : ResolverState) (name : String)
    (prompt : Option String)
    (h1 : cli_value st name = none)
    (h2 : config_value (load_config st.file) name = none)
    (h3 : env_value st name = none)
    (h4 : truthyOptStr prompt = false ∨ pyStrip st.user_input = "") :
    ∃ m, get_parameter st name prompt true none = .error (.valueError m) ∧
      (m = prompt_required_msg name ∨ m = required_msg name) ∧
      (PyError.valueError m).isAgentRegistrarError = false := by
  by_cases hp : truthyOptStr prompt = true
  · have hui : pyStrip st.user_input = "" := by
      rcases h4 with h | h
      · rw [hp] at h
        exact absurd h (by simp)
      · exact h
    refine ⟨prompt_required_msg name, ?_, Or.inl rfl, rfl⟩
    simp [get_parameter, h1, h2, h3, hp, hui, resolve_default]
  · refine ⟨required_msg name, ?_, Or.inr rfl, rfl⟩
    have hp' : truthyOptStr prompt = false := by
      cases h : truthyOptStr prompt
      · rfl
      · exact absurd h hp
    simp [get_parameter, h1, h2, h3, hp', resolve_default]

/-- Witness for C2 (amended) at a concrete input. -/
theorem c2_missing_required_value_error_witness :
    ∃ m, get_parameter emptyResolverState "agent_id" none true none =
        .error (.valueError m) ∧
      (m = prompt_required_msg "agent_id" ∨ m = required_msg "agent_id") ∧
      (PyError.valueError m).isAgentRegistrarError = false :=
  c2_missing_required_value_error emptyResolverState "agent_id" none
    (by decide) (by decide) (by decide) (Or.inl (by decide))

/-- Claim C3: when nothing resolves, a non-required parameter yields `None`
without error; a default satisfies `required=true` without error; and an empty
interactive response counts as no value, resolution falling through to the
default. -/
theorem c3_optional_default_and_empty_prompt (st : ResolverState) (name : String)
    (prompt : Option String) (d : String)
    (h1 : cli_value st name = none)
    (h2 : config_value (load_config st.file) name = none)
    (h3 : env_value st name = none)
    (h4 : truthyOptStr prompt = false ∨ pyStrip st.user_input = "") :
    (get_parameter st name prompt false none = .ok none) ∧
    (∀ required, get_parameter st name prompt required (some d) = .ok (some d)) ∧
    (truthyOptStr prompt = true → pyStrip st.user_input = "" →
      get_parameter st name prompt true (some d) = .ok (some d)) := by
  have cases_prompt : ∀ (required : Bool) (default : Option String),
      ¬(default = none ∧ required = true) →
      get_parameter st name prompt required default = resolve_default name required default := by
    intro required default hnd
    by_cases hp : truthyOptStr prompt = true
    · have hui : pyStrip st.user_input = "" := by
        rcases h4 with h | h
        · rw [hp] at h
          exact absurd h (by simp)
        · exact h
      simp [get_parameter, h1, h2, h3, hp, hui, hnd]
    · have hp' : truthyOptStr prompt = false := by
        cases h : truthyOptStr prompt
        · rfl
        · exact absurd h hp
      simp [get_parameter, h1, h2, h3, hp']
  refine ⟨?_, ?_, ?_⟩
  · rw [cases_prompt false none (by simp)]
    rfl
  · intro required
    rw [cases_prompt required (some d) (by simp)]
    rfl
  · intro _ _
    rw [cases_prompt true (some d) (by simp)]
    rfl

/-- Witness for C3 at a concrete input: an empty prompt response falls through
to the default. -/
theorem c3_optional_default_and_empty_prompt_witness :
    (get_parameter emptyResolverState "api_location2" none false none = .ok none) ∧
    (get_parameter emptyResolverState "api_location2" (some "Enter value") true
        (some "global") = .ok (some "global")) := by
  have h := c3_optional_default_and_empty_prompt emptyResolverState "api_location2"
    (some "Enter value") "global" (by decide) (by decide) (by decide) (Or.inr (by decide))
  have h0 := c3_optional_default_and_empty_prompt emptyResolverState "api_location2"
    none "global" (by decide) (by decide) (by decide) (Or.inl (by decide))
  exact ⟨h0.1, h.2.1 true⟩

/-- Claim C4: a missing or malformed config file silently loads as the empty
configuration object, in both the `ConfigManager` and the legacy client, and
parameter resolution then behaves exactly as if an empty config object had
been supplied. -/
theorem c4_config_loader_silent_empty :
    (load_config .missing = ({} : GlobalConfig) ∧
     load_config .malformedJson = ({} : GlobalConfig) ∧
     load_config_legacy .missing = [] ∧
     load_config_legacy .malformedJson = []) ∧
    (∀ (cli : List (String × Option String)) (env : List (String × String))
       (ui name : String) (prompt : Option String) (required : Bool)
       (default : Option String),
      get_parameter ⟨.missing, cli, env, ui⟩ name prompt required default =
        get_parameter ⟨.valid {}, cli, env, ui⟩ name prompt required default ∧
      get_parameter ⟨.malformedJson, cli, env, ui⟩ name prompt required default =
        get_parameter ⟨.valid {}, cli, env, ui⟩ name prompt required default) := by
  refine ⟨⟨rfl, rfl, rfl, rfl⟩, ?_⟩
  intro cli env ui name prompt required default
  exact ⟨rfl, rfl⟩

/-- Claim C5: a destructive verb invoked without `--force` whose confirmation
is answered "no" reports the cancellation and issues no network call, both in
the typer CLI (`registry delete`) and in the legacy client
(`unregister_agent`). -/
theorem c5_delete_cancelled_no_network :
    (∀ proceed : DeleteFlowResult,
      delete_agent_cli false false proceed =
        { messages := ["Operation cancelled."], network := [], exited := true }) ∧
    (∀ proceed : DeleteFlowResult,
      unregister_agent_flow "no" proceed =
        { messages := ["Unregistering agent cancelled."], network := [], exited := false }) := by
  constructor
  · intro proceed
    rfl
  · intro proceed
    rfl

/-- Claim C6: the three derived configuration builders are the stated fixed
compositions of the resolver: the deployment-registry builder resolves project
id and region with an environment-style fallback (`AGENTSPACE_PROJECT_ID`,
`AGENTSPACE_LOCATION`) and requires the project id; the gallery-registry
builder requires project id and app id and gives both location fields the
literal `"global"`; the per-agent builder requires display name, description,
tool description and deployment id, while authorization id and icon URI
default to absent. -/
theorem c6_builder_compositions :
    (∀ p a : String,
      get_agent_registry_config
        { file := .missing, cli_args := [("project_id", some p), ("app_id", some a)],
          env := [], user_input := "" } =
        .ok { project_id := some p, app_id := some a,
              api_location := some "global", re_location := some "global" }) ∧
    (get_agent_registry_config emptyResolverState =
      .error (.valueError (required_msg "project_id"))) ∧
    (∀ p l : String,
      get_agent_engine_config
        { file := .missing, cli_args := [],
          env := [("AGENTSPACE_PROJECT_ID", p), ("AGENTSPACE_LOCATION", l)],
          user_input := "" } =
        .ok { project_id := some p, location := some l }) ∧
    (∀ p : String,
      get_agent_engine_config
        { file := .missing, cli_args := [("project_id", some p)], env := [],
          user_input := "" } =
        .ok { project_id := some p, location := some "us-central1" }) ∧
    (get_agent_engine_config emptyResolverState =
      .error (.valueError (required_msg "project_id"))) ∧
    (∀ dn de td dep : String,
      get_agent_config
        { file := .missing,
          cli_args := [("ars_display_name", some dn), ("description", some de),
                       ("tool_description", some td), ("adk_deployment_id", some dep)],
          env := [], user_input := "" } =
        .ok { display_name := some dn, description := some de,
              tool_description := some td, adk_deployment_id := some dep,
              auth_id := none, icon_uri := none }) ∧
    (get_agent_config emptyResolverState =
      .error (.valueError (required_msg "ars_display_name"))) := by
  refine ⟨?_, rfl, ?_, ?_, rfl, ?_, rfl⟩
  · intro p a
    rfl
  · intro p l
    rfl
  · intro p
    rfl
  · intro dn de td dep
    rfl

/-- Claim C7: the refresh-authorization operation is create-then-delete with
no rollback: the first service call is always the create of the new
authorization; when the create succeeds and the delete of the old one fails,
the issued calls are exactly the create followed by the one delete of the old
id and the failure propagates; and across all outcomes the only delete ever
issued targets the old id — no compensating delete of the new authorization is
attempted. -/
theorem c7_refresh_create_then_delete_no_rollback (old : String)
    (newId createdName : Option String) (cOut : Except PyError (Option String))
    (dOut : Except PyError Unit) (e : PyError) (h : old ≠ "") :
    ((refresh_execute old newId cOut dOut).1.head? = some (.create newId)) ∧
    (refresh_execute old newId (.ok createdName) (.error e) =
      ([.create newId, .del old], .error e)) ∧
    ((refresh_execute old newId cOut dOut).1.filter AuthCall.isDelete =
      match cOut with
      | .error _ => []
      | .ok _ => [AuthCall.del old]) := by
  refine ⟨?_, ?_, ?_⟩
  · cases cOut <;> cases dOut <;> simp [refresh_execute, h]
  · simp [refresh_execute, h]
  · cases cOut <;> cases dOut <;> simp [refresh_execute, h, AuthCall.isDelete]

/-- Witness for C7 at a concrete input: create succeeds, delete of the old
authorization fails, and the issued calls are exactly create-then-delete with
the error reported. -/
theorem c7_refresh_create_then_delete_no_rollback_witness :
    refresh_execute "old-auth" (some "new-auth")
        (.ok (some "projects/p/locations/us/authorizations/new-auth"))
        (.error (.serviceError "HTTP error 404")) =
      ([.create (some "new-auth"), .del "old-auth"],
       .error (.serviceError "HTTP error 404")) :=
  (c7_refresh_create_then_delete_no_rollback "old-auth" (some "new-auth")
    (some "projects/p/locations/us/authorizations/new-auth")
    (.ok (some "projects/p/locations/us/authorizations/new-auth"))
    (.error (.serviceError "HTTP error 404")) (.serviceError "HTTP error 404")
    (by decide)).2.1

/-- Claim C9: the `updateMask` of `update_agent` lists exactly the keys placed
in the request body, in order; each field appears in the mask iff its argument
is not `None`; and when every optional field argument is `None` the call
raises `ServiceError("No fields to update")` and no request value is ever
produced. -/
theorem c9_update_mask_matches_body (tk agent_id project_id app_id : String)
    (dn de td dep auth icon : Option String) (re_location api_location : String) :
    ((update_body project_id dn de td dep auth icon re_location api_location).map
        Prod.fst = update_mask_parts dn de td dep auth icon) ∧
    (∀ req, update_agent (some tk) agent_id project_id app_id dn de td dep auth icon
        re_location api_location = .ok req →
      req.body = update_body project_id dn de td dep auth icon re_location api_location ∧
      req.updateMask = String.intercalate "," (update_mask_parts dn de td dep auth icon)) ∧
    ("displayName" ∈ update_mask_parts dn de td dep auth icon ↔ dn ≠ none) ∧
    ("description" ∈ update_mask_parts dn de td dep auth icon ↔ de ≠ none) ∧
    ("adk_agent_definition.tool_settings.tool_description" ∈
        update_mask_parts dn de td dep auth icon ↔ td ≠ none) ∧
    ("adk_agent_definition.provisioned_reasoning_engine.reasoning_engine" ∈
        update_mask_parts dn de td dep auth icon ↔ dep ≠ none) ∧
    ("adk_agent_definition.authorizations" ∈ update_mask_parts dn de td dep auth icon ↔
        auth ≠ none) ∧
    ("icon.uri" ∈ update_mask_parts dn de td dep auth icon ↔ icon ≠ none) ∧
    (dn = none → de = none → td = none → dep = none → auth = none → icon = none →
      update_agent (some tk) agent_id project_id app_id dn de td dep auth icon
        re_location api_location = .error (.serviceError "No fields to update")) := by
  refine ⟨?_, ?_, ?_, ?_, ?_, ?_, ?_, ?_, ?_⟩
  · cases dn <;> cases de <;> cases td <;> cases dep <;> cases auth <;> cases icon <;>
      simp [update_body, update_mask_parts]
  · intro req h
    simp only [update_agent] at h
    split at h
    · exact absurd h (by simp)
    · injection h with h'
      subst h'
      exact ⟨rfl, rfl⟩
  · rw [update_mask_parts_eq]
    simp [maskTag_mem]
  · rw [update_mask_parts_eq]
    simp [maskTag_mem]
  · rw [update_mask_parts_eq]
    simp [maskTag_mem]
  · rw [update_mask_parts_eq]
    simp [maskTag_mem]
  · rw [update_mask_parts_eq]
    simp [maskTag_mem]
  · rw [update_mask_parts_eq]
    simp [maskTag_mem]
  · intro e1 e2 e3 e4 e5 e6
    subst e1 e2 e3 e4 e5 e6
    rfl

/-- Witness for C9 at a concrete input: one field set yields that mask, all
fields unset raises the service error. -/
theorem c9_update_mask_matches_body_witness :
    ({ url := build_url "p" "app" (some "ag") "global",
       body := [("displayName", BodyVal.s "d")],
       updateMask := "displayName" : UpdateRequest }.body =
      update_body "p" (some "d") none none none none none "global" "global" ∧
     { url := build_url "p" "app" (some "ag") "global",
       body := [("displayName", BodyVal.s "d")],
       updateMask := "displayName" : UpdateRequest }.updateMask =
      String.intercalate "," (update_mask_parts (some "d") none none none none none)) ∧
    update_agent (some "tok") "ag" "p" "app" none none none none none none
      "global" "global" = .error (.serviceError "No fields to update") :=
  ⟨(c9_update_mask_matches_body "tok" "ag" "p" "app" (some "d") none none none none none
      "global" "global").2.1 _ (by rfl),
   (c9_update_mask_matches_body "tok" "ag" "p" "app" none none none none none none
      "global" "global").2.2.2.2.2.2.2.2 rfl rfl rfl rfl rfl rfl⟩

/-- Counterexample to C10 as stated: starting from an uninitialized module, a
successful initialization sets the flag; a subsequent *failed* initialization
(empty project id, which raises `ValueError` before the `try` block) leaves
the flag `True` instead of resetting it to `False`, and the deployment-registry
operations then proceed even though the most recent initialization failed. -/
theorem c10_failed_init_keeps_flag_counterexample :
    (init_vertex_ai false (some "p") (.ok ())).1 = true ∧
    (init_vertex_ai true (some "") (.ok ())).2 =
      .error (.valueError
        "Project ID cannot be None or empty for Vertex AI initialization.") ∧
    (init_vertex_ai true (some "") (.ok ())).1 = true ∧
    legacy_list_agents (init_vertex_ai true (some "") (.ok ())).1 [] = .ok [] := by
  exact ⟨rfl, rfl, rfl, rfl⟩

/-- Claim C10 (amended): every deployment-registry operation of the legacy
engine manager raises `RuntimeError` while the initialized flag is unset, and
the flag becomes set only through a successful `initialize_vertex_ai`; a
`vertexai.init` failure resets the flag to `False`, but an initialization
rejected for an empty/None project id raises `ValueError` before touching the
flag, so after such a failed call operations still proceed if an earlier
initialization had succeeded. -/
theorem c10_init_guard :
    (∀ sdkAgents, legacy_list_agents false sdkAgents =
      .error (.runtimeError ensure_msg)) ∧
    (∀ rn, legacy_delete_agent false rn = .error (.runtimeError ensure_msg)) ∧
    (∀ a, legacy_get_agent false a = .error (.runtimeError ensure_msg)) ∧
    (∀ d ag, legacy_list_agents_by_display_name false d ag =
      .error (.runtimeError ensure_msg)) ∧
    (∀ sdkAgents, legacy_list_agents true sdkAgents = .ok sdkAgents) ∧
    (∀ flag pid e, truthyOptStr pid = true →
      init_vertex_ai flag pid (.error e) = (false, .error e)) ∧
    (∀ flag pid sdk, truthyOptStr pid = false →
      init_vertex_ai flag pid sdk =
        (flag, .error (.valueError
          "Project ID cannot be None or empty for Vertex AI initialization."))) ∧
    (∀ flag pid sdk, (init_vertex_ai flag pid sdk).1 = true →
      (truthyOptStr pid = true ∧ sdk = .ok ()) ∨
      (truthyOptStr pid = false ∧ flag = true)) := by
  refine ⟨fun _ => rfl, fun _ => rfl, fun _ => rfl, fun _ _ => rfl, fun _ => rfl,
    ?_, ?_, ?_⟩
  · intro flag pid e h
    simp [init_vertex_ai, h]
  · intro flag pid sdk h
    simp [init_vertex_ai, h]
  · intro flag pid sdk h
    by_cases hp : truthyOptStr pid = true
    · cases sdk with
      | ok u => exact Or.inl ⟨hp, rfl⟩
      | error e =>
        rw [show init_vertex_ai flag pid (.error e) = (false, .error e) by
          simp [init_vertex_ai, hp]] at h
        exact absurd h (by simp)
    · have hp' : truthyOptStr pid = false := by
        cases hh : truthyOptStr pid
        · rfl
        · exact absurd hh hp
      have heq : (init_vertex_ai flag pid sdk).1 = flag := by
        simp [init_vertex_ai, hp']
      rw [heq] at h
      exact Or.inr ⟨hp', h⟩

/-- Witness for C10 (amended) at concrete inputs: an SDK failure resets the
flag, and a validation failure leaves it set. -/
theorem c10_init_guard_witness :
    init_vertex_ai true (some "p") (.error (.serviceError "boom")) =
      (false, .error (.serviceError "boom")) ∧
    init_vertex_ai true none (.ok ()) =
      (true, .error (.valueError
        "Project ID cannot be None or empty for Vertex AI initialization.")) :=
  ⟨c10_init_guard.2.2.2.2.2.1 true (some "p") (.serviceError "boom") (by decide),
   c10_init_guard.2.2.2.2.2.2.1 true none (.ok ()) (by decide)⟩

theorem char_toNat_valid (c : Char) :
    c.toNat < 55296 ∨ (57343 < c.toNat ∧ c.toNat < 1114112) := by
  rcases c.valid with h | ⟨h1, h2⟩
  · exact Or.inl (UInt32.toNat_lt_of_lt (by decide) h)
  · exact Or.inr ⟨UInt32.lt_toNat_of_lt (by decide) h1, UInt32.toNat_lt_of_lt (by decide) h2⟩

theorem hexVal_toHexDigit : ∀ k, k < 16 → hexVal (toHexDigit k) = some k := by decide

theorem psb_quote (f : Nat) (acc s : List Char) :
    parse_string_body (f + 1) acc ('"' :: s) = some (acc.reverse, s) := by
  simp [parse_string_body]

theorem psb_plain (f : Nat) (acc s : List Char) (c : Char) (h1 : c ≠ '"')
    (h2 : c ≠ '\\') (h3 : ¬ c.toNat < 32) :
    parse_string_body (f + 1) acc (c :: s) = parse_string_body f (c :: acc) s := by
  simp [parse_string_body, h1, h2, h3]

theorem psb_escape (f : Nat) (acc s rest2 : List Char) (ch : Char)
    (h : decode_escape s = some (ch, rest2)) :
    parse_string_body (f + 1) acc ('\\' :: s) = parse_string_body f (ch :: acc) rest2 := by
  simp [parse_string_body, h]

theorem hex4val_hex4 (n : Nat) (h : n < 65536) (s : List Char) :
    hex4val (hex4 n ++ s) = some (n, s) := by
  have d1 : hexVal (toHexDigit (n / 4096 % 16)) = some (n / 4096 % 16) :=
    hexVal_toHexDigit _ (Nat.mod_lt _ (by norm_num))
  have d2 : hexVal (toHexDigit (n / 256 % 16)) = some (n / 256 % 16) :=
    hexVal_toHexDigit _ (Nat.mod_lt _ (by norm_num))
  have d3 : hexVal (toHexDigit (n / 16 % 16)) = some (n / 16 % 16) :=
    hexVal_toHexDigit _ (Nat.mod_lt _ (by norm_num))
  have d4 : hexVal (toHexDigit (n % 16)) = some (n % 16) :=
    hexVal_toHexDigit _ (Nat.mod_lt _ (by norm_num))
  simp [hex4, hex4val, d1, d2, d3, d4]
  omega

theorem decode_u_basic (n : Nat) (h : n < 65536) (hns : n < 55296 ∨ 57344 ≤ n)
    (s : List Char) : decode_u (hex4 n ++ s) = some (Char.ofNat n, s) := by
  simp only [decode_u, hex4val_hex4 n h s]
  rw [if_neg (by omega), if_neg (by omega)]

theorem decode_u_pair (n m : Nat) (hn : 55296 ≤ n ∧ n < 56320)
    (hm : 56320 ≤ m ∧ m < 57344) (s : List Char) :
    decode_u (hex4 n ++ ('\\' :: 'u' :: (hex4 m ++ s))) =
      some (Char.ofNat (65536 + 1024 * (n - 55296) + (m - 56320)), s) := by
  simp only [decode_u, hex4val_hex4 n (by omega)]
  rw [if_pos hn]
  simp only [if_pos (And.intro rfl rfl), hex4val_hex4 m (by omega) s]
  simp [if_pos hm]

theorem psb_step (f : Nat) (c : Char) (acc s : List Char) :
    parse_string_body (f + 1) acc (escapeChar c ++ s) = parse_string_body f (c :: acc) s := by
  by_cases h1 : c = '"'
  · subst h1
    rw [show escapeChar '"' = ['\\', '"'] by decide]
    exact psb_escape f acc _ s _ (by rfl)
  by_cases h2 : c = '\\'
  · subst h2
    rw [show escapeChar '\\' = ['\\', '\\'] by decide]
    exact psb_escape f acc _ s _ (by rfl)
  by_cases h3 : c = '\x08'
  · subst h3
    rw [show escapeChar '\x08' = ['\\', 'b'] by decide]
    exact psb_escape f acc _ s _ (by rfl)
  by_cases h4 : c = '\x0c'
  · subst h4
    rw [show escapeChar '\x0c' = ['\\', 'f'] by decide]
    exact psb_escape f acc _ s _ (by rfl)
  by_cases h5 : c = '\n'
  · subst h5
    rw [show escapeChar '\n' = ['\\', 'n'] by decide]
    exact psb_escape f acc _ s _ (by rfl)
  by_cases h6 : c = '\r'
  · subst h6
    rw [show escapeChar '\r' = ['\\', 'r'] by decide]
    exact psb_escape f acc _ s _ (by rfl)
  by_cases h7 : c = '\t'
  · subst h7
    rw [show escapeChar '\t' = ['\\', 't'] by decide]
    exact psb_escape f acc _ s _ (by rfl)
  by_cases hlt : c.toNat < 32
  · have hne : escapeChar c = '\\' :: 'u' :: hex4 c.toNat := by
      simp [escapeChar, h1, h2, h3, h4, h5, h6, h7, hlt]
    rw [hne]
    have hdec : decode_escape ('u' :: (hex4 c.toNat ++ s)) = some (c, s) := by
      have hu : decode_u (hex4 c.toNat ++ s) = some (Char.ofNat c.toNat, s) :=
        decode_u_basic c.toNat (by omega) (by omega) s
      simp [decode_escape, hu, Char.ofNat_toNat]
    simp only [List.cons_append, List.append_assoc]
    exact psb_escape f acc _ s c hdec
  by_cases h127 : c.toNat < 127
  · have hne : escapeChar c = [c] := by
      simp [escapeChar, h1, h2, h3, h4, h5, h6, h7, hlt, h127]
    rw [hne]
    simp only [List.cons_append, List.nil_append]
    exact psb_plain f acc s c h1 h2 hlt
  by_cases hbmp : c.toNat < 65536
  · have hne : escapeChar c = '\\' :: 'u' :: hex4 c.toNat := by
      simp [escapeChar, h1, h2, h3, h4, h5, h6, h7, hlt, h127, hbmp]
    rw [hne]
    have hns : c.toNat < 55296 ∨ 57344 ≤ c.toNat := by
      rcases char_toNat_valid c with hv | hv
      · exact Or.inl hv
      · exact Or.inr (by omega)
    have hdec : decode_escape ('u' :: (hex4 c.toNat ++ s)) = some (c, s) := by
      have hu : decode_u (hex4 c.toNat ++ s) = some (Char.ofNat c.toNat, s) :=
        decode_u_basic c.toNat hbmp hns s
      simp [decode_escape, hu, Char.ofNat_toNat]
    simp only [List.cons_append, List.append_assoc]
    exact psb_escape f acc _ s c hdec
  · have hne : escapeChar c =
        ('\\' :: 'u' :: hex4 (55296 + (c.toNat - 65536) / 1024)) ++
        ('\\' :: 'u' :: hex4 (56320 + (c.toNat - 65536) % 1024)) := by
      simp [escapeChar, h1, h2, h3, h4, h5, h6, h7, hlt, h127, hbmp]
    rw [hne]
    have hv : c.toNat < 1114112 := by
      rcases char_toNat_valid c with hv | hv
      · omega
      · omega
    have hdec : decode_escape
        ('u' :: (hex4 (55296 + (c.toNat - 65536) / 1024) ++
          ('\\' :: 'u' :: (hex4 (56320 + (c.toNat - 65536) % 1024) ++ s)))) = some (c, s) := by
      have hu := decode_u_pair (55296 + (c.toNat - 65536) / 1024)
        (56320 + (c.toNat - 65536) % 1024)
        (by constructor <;> omega)
        (by constructor <;> omega) s
      have harith : 65536 + 1024 * ((55296 + (c.toNat - 65536) / 1024) - 55296) +
          ((56320 + (c.toNat - 65536) % 1024) - 56320) = c.toNat := by
        omega
      rw [harith] at hu
      simp [decode_escape, hu, Char.ofNat_toNat]
    simp only [List.cons_append, List.append_assoc]
    exact psb_escape f acc _ s c hdec

theorem escapeChar_length_pos (c : Char) : 1 ≤ (escapeChar c).length := by
  unfold escapeChar
  repeat' split
  all_goals simp [hex4]

theorem escapeList_length (cs : List Char) : cs.length ≤ (escapeList cs).length := by
  induction cs with
  | nil => simp [escapeList]
  | cons c cs ih =>
    have := escapeChar_length_pos c
    simp only [escapeList, List.length_append, List.length_cons]
    omega

theorem psb_escapeList (cs : List Char) : ∀ (acc s : List Char) (fuel : Nat),
    cs.length < fuel →
    parse_string_body fuel acc (escapeList cs ++ ('"' :: s)) =
      some (acc.reverse ++ cs, s) := by
  induction cs with
  | nil =>
    intro acc s fuel h
    cases fuel with
    | zero => omega
    | succ f =>
      simpa [escapeList] using psb_quote f acc s
  | cons c cs ih =>
    intro acc s fuel h
    cases fuel with
    | zero => omega
    | succ f =>
      have hcs : cs.length < f := by
        simp only [List.length_cons] at h
        omega
      have e1 : escapeList (c :: cs) ++ ('"' :: s) =
          escapeChar c ++ (escapeList cs ++ ('"' :: s)) := by
        simp [escapeList, List.append_assoc]
      rw [e1, psb_step f c acc _, ih (c :: acc) s f hcs]
      simp

theorem parse_dump_string (v : String) (s : List Char) :
    parse_json_string (json_dump_string v ++ s) = some (v, s) := by
  have e1 : json_dump_string v ++ s = '"' :: (escapeList v.data ++ ('"' :: s)) := by
    simp [json_dump_string, List.append_assoc]
  rw [e1]
  simp only [parse_json_string]
  have hlen : v.data.length < (escapeList v.data ++ ('"' :: s)).length + 1 := by
    have := escapeList_length v.data
    simp only [List.length_append, List.length_cons]
    omega
  rw [psb_escapeList v.data [] s _ hlen]
  rfl

theorem skip_ws_space (l : List Char) : skip_ws (' ' :: l) = skip_ws l := by
  simp [skip_ws]

theorem skip_ws_newline (l : List Char) : skip_ws ('\n' :: l) = skip_ws l := by
  simp [skip_ws]

theorem skip_ws_string_head (v : String) (X : List Char) :
    skip_ws (json_dump_string v ++ X) = json_dump_string v ++ X := by
  simp [json_dump_string, skip_ws]

theorem skip_ws_entry (kv : String × String) (X : List Char) :
    skip_ws (json_dump_entry kv ++ X) =
      json_dump_string kv.1 ++ (':' :: ' ' :: (json_dump_string kv.2 ++ X)) := by
  have e1 : json_dump_entry kv ++ X =
      ' ' :: ' ' :: (json_dump_string kv.1 ++ ((':' :: ' ' :: (json_dump_string kv.2 ++ X)))) := by
    simp [json_dump_entry, List.append_assoc]
  rw [e1, skip_ws_space, skip_ws_space]
  exact skip_ws_string_head kv.1 _

theorem json_dump_rest_length (rest : List (String × String)) :
    rest.length ≤ (json_dump_rest rest).length := by
  induction rest with
  | nil => simp [json_dump_rest]
  | cons kv rest ih =>
    simp only [json_dump_rest, List.length_cons, List.length_append]
    omega

theorem parse_members_spec (rest : List (String × String)) :
    ∀ (k v : String) (acc : List (String × String)) (l : List Char) (fuel : Nat),
    rest.length < fuel →
    skip_ws l = json_dump_string k ++ (':' :: ' ' :: (json_dump_string v ++ json_dump_rest rest)) →
    parse_members fuel acc l = some (acc.reverse ++ ((k, v) :: rest), []) := by
  induction rest with
  | nil =>
    intro k v acc l fuel hf hl
    cases fuel with
    | zero => omega
    | succ f =>
      have h2 : skip_ws (':' :: ' ' :: (json_dump_string v ++ json_dump_rest [])) =
          ':' :: ' ' :: (json_dump_string v ++ json_dump_rest [])  := by
        simp [skip_ws]
      have h3 : skip_ws (' ' :: (json_dump_string v ++ json_dump_rest [])) =
          json_dump_string v ++ json_dump_rest [] := by
        rw [skip_ws_space]
        exact skip_ws_string_head v _
      have h4 : skip_ws (json_dump_rest []) = '\x7d' :: [] := by
        simp [json_dump_rest, skip_ws]
      simp only [parse_members, hl, parse_dump_string, h2, h3, h4]
      simp
  | cons kv2 rest2 ih =>
    intro k v acc l fuel hf hl
    cases fuel with
    | zero => omega
    | succ f =>
      have h2 : skip_ws (':' :: ' ' :: (json_dump_string v ++ json_dump_rest (kv2 :: rest2))) =
          ':' :: ' ' :: (json_dump_string v ++ json_dump_rest (kv2 :: rest2)) := by
        simp [skip_ws]
      have h3 : skip_ws (' ' :: (json_dump_string v ++ json_dump_rest (kv2 :: rest2))) =
          json_dump_string v ++ json_dump_rest (kv2 :: rest2) := by
        rw [skip_ws_space]
        exact skip_ws_string_head v _
      have h4 : skip_ws (json_dump_rest (kv2 :: rest2)) =
          ',' :: ('\n' :: (json_dump_entry kv2 ++ json_dump_rest rest2)) := by
        simp [json_dump_rest, skip_ws]
      have h5 : skip_ws ('\n' :: (json_dump_entry kv2 ++ json_dump_rest rest2)) =
          json_dump_string kv2.1 ++ (':' :: ' ' :: (json_dump_string kv2.2 ++ json_dump_rest rest2)) := by
        rw [skip_ws_newline]
        exact skip_ws_entry kv2 _
      have h6 : rest2.length < f := by
        simp only [List.length_cons] at hf
        omega
      simp only [parse_members, hl, parse_dump_string, h2, h3, h4]
      rw [ih kv2.1 kv2.2 ((k, v) :: acc) _ f h6 h5]
      simp

/-- Claim C8: rendering a flat string-valued ResolvedConfig mapping to
indented JSON (`json.dumps(d, indent=2)`, as `format_json` does) and parsing
it back (`json.loads`) yields the same mapping — every field value, including
ones needing escapes, is preserved.  The `Nodup` hypothesis records that a
Python dict has unique keys. -/
theorem c8_json_roundtrip (m : List (String × String))
    (hkeys : (m.map Prod.fst).Nodup) :
    json_loads_flat (json_dumps_flat m) = some m := by
  cases m with
  | nil => rfl
  | cons kv rest =>
    have hdata : (json_dumps_flat (kv :: rest)).data =
        '\x7b' :: '\n' :: (json_dump_entry kv ++ json_dump_rest rest) := rfl
    have h0 : skip_ws ('\x7b' :: '\n' :: (json_dump_entry kv ++ json_dump_rest rest)) =
        '\x7b' :: '\n' :: (json_dump_entry kv ++ json_dump_rest rest) := by
      simp [skip_ws]
    have h1 : skip_ws ('\n' :: (json_dump_entry kv ++ json_dump_rest rest)) =
        json_dump_string kv.1 ++ (':' :: ' ' :: (json_dump_string kv.2 ++ json_dump_rest rest)) := by
      rw [skip_ws_newline]
      exact skip_ws_entry kv _
    have hfuel : rest.length < ('\n' :: (json_dump_entry kv ++ json_dump_rest rest)).length + 1 := by
      have := json_dump_rest_length rest
      simp only [List.length_cons, List.length_append]
      omega
    have hmem := parse_members_spec rest kv.1 kv.2 []
      ('\n' :: (json_dump_entry kv ++ json_dump_rest rest)) _ hfuel h1
    have hstr : json_dump_string kv.1 ++ (':' :: ' ' :: (json_dump_string kv.2 ++ json_dump_rest rest)) =
        '"' :: (escapeList kv.1.data ++ ('"' :: (':' :: ' ' :: (json_dump_string kv.2 ++ json_dump_rest rest))))
        := by
      simp [json_dump_string, List.append_assoc]
    simp only [json_loads_flat, hdata, h0, h1, hstr, hmem]
    simp [skip_ws]

/-- Witness for C8 at a concrete config, exercising escapes in a value. -/
theorem c8_json_roundtrip_witness :
    ((([("project_id", "p1"), ("app_id", "a \"1\"")] :
        List (String × String)).map Prod.fst).Nodup) ∧
    json_loads_flat (json_dumps_flat [("project_id", "p1"), ("app_id", "a \"1\"")]) =
      some [("project_id", "p1"), ("app_id", "a \"1\"")] :=
  ⟨by decide, c8_json_roundtrip _ (by decide)⟩
